import Mathlib

/-
Verification of the Morph L2 frontend (session/network guard, balance
reader, faucet writer) against its natural-language specification.

The development shallowly embeds the three components:
  - App.tsx              : connection/network guard and its switch-network effect
  - components/Balances.tsx : batched balance read and its rendering
  - components/Faucet.tsx   : claim submission state machine
together with the unit-conversion collaborator (viem `formatUnits`) and the
query-layer delivery rule the balance reader relies on.
-/

namespace MorphFrontend

/-! ## Constants (src/constants.ts) -/

/-- Address of the iToken ERC20 contract (constants.ts line 1). -/
def ITOKEN_ADDRESS : String := "0x5086D4873B48041D276E40b7bd5644E6C3c0D247"

/-- Address of the iToken faucet contract (constants.ts line 2). -/
def ITOKEN_FAUCET_ADDRESS : String := "0xF2E381ee43cdC0CD99f107eBb9820ca27DA0A1BE"

/-- The single target network id the app operates against (Morph Holesky,
compared literally as 2810 in App.tsx). -/
def targetChainId : Nat := 2810

/-! ## Unit conversion (viem `formatUnits`, used by Balances.tsx)

viem converts a raw bigint amount to a decimal string by taking its decimal
digits, left-padding with zeros up to `decimals` characters, splitting into
an integer part and a `decimals`-character fractional part, stripping the
fraction's trailing zeros, and defaulting an empty integer part to "0".
`balanceOf` returns a uint256, so only the non-negative branch of the source
is relevant and the value is embedded as a natural number. -/

/-- JavaScript `padStart(n, '0')` on a digit list: left-pad with zeros up to
length `n` (no-op when already at least that long). -/
def padStartZeros (s : List Char) (n : Nat) : List Char :=
  List.replicate (n - s.length) '0' ++ s

/-- The `replace(/(0+)$/, '')` step of viem formatUnits: drop the trailing
zero characters. -/
def stripTrailingZeros (s : List Char) : List Char :=
  (s.reverse.dropWhile (fun c => c = '0')).reverse

/-- viem `formatUnits(value, decimals)` for a non-negative value: the raw
integer scaled down by 10 to the `decimals`, printed exactly. -/
def formatUnits (value : Nat) (decimals : Nat) : String :=
  let display := padStartZeros (Nat.toDigits 10 value) decimals
  let integer := display.take (display.length - decimals)
  let fraction := stripTrailingZeros (display.drop (display.length - decimals))
  (if integer.isEmpty then "0" else String.mk integer)
    ++ (if fraction.isEmpty then "" else "." ++ String.mk fraction)

/-! ## Balance reader (src/src/components/Balances.tsx)

The component consumes `useReadContracts` through three fields: `isLoading`,
`isError`, and `data`, an array of per-call entries for the three calls
balanceOf / decimals / symbol.  With the hook's default allow-failure
behaviour each entry carries either a typed result or a per-call error
(modelled as `none`); `isError` reports a batch-level failure only. -/

/-- Per-call results of one resolved batch: each of the three entries either
carries its typed result or failed individually (`none`). -/
structure BatchData where
  balanceOf : Option Nat
  decimals : Option Nat
  symbol : Option String
deriving DecidableEq

/-- The hook state as consumed by the component: loading, batch-level
failure, or a resolved batch of per-call entries. -/
inductive HookRes where
  | loading
  | error
  | success (d : BatchData)
deriving DecidableEq

/-- The effect of Balances.tsx lines 33-41.  Its guard
`data && data[0] && data[1]` tests the per-call entry objects, which are
truthy whenever the batch resolved, never the per-call statuses; the
entries' result fields are then dereferenced unconditionally and the
formatted balance is stored.  The `none` branch marks the runs on which the
source dereferences a missing result (formatUnits applied to undefined),
which throws rather than producing a string. -/
def runBalanceEffect (d : Option BatchData) (prev : String) : Option String :=
  match d with
  | none => some prev
  | some bd =>
    match bd.balanceOf, bd.decimals with
    | some raw, some dec => some (formatUnits raw dec)
    | _, _ => none

/-- The four things Balances can render: nothing (null), the loading
paragraph, the error paragraph, or the ready balance card with its text. -/
inductive BalView where
  | nothing
  | loading
  | error
  | ready (text : String)
deriving DecidableEq

/-- The render of Balances.tsx lines 43-59, in source order: null when not
connected, then the loading check, then the error check, then the ready
card whose text is the stored balance followed by the literal "IT". -/
def balancesRender (isConnected : Bool) (hook : HookRes) (balance : String) : BalView :=
  if !isConnected then BalView.nothing
  else
    match hook with
    | HookRes.loading => BalView.loading
    | HookRes.error => BalView.error
    | HookRes.success _ => BalView.ready (balance ++ " IT")

end MorphFrontend

namespace MorphFrontend

/-! ## Claims about the balance reader -/

/-- C2: for a successful batch the effect stores exactly the raw amount
scaled down by 10^decimals and the view renders it followed by the token
symbol "IT"; in particular raw 1000000000000000000000 at 18 decimals
renders "1000 IT" and raw 0 at 18 decimals renders "0 IT" (the ready card,
neither the error nor the loading paragraph). -/
theorem balance_text_formatting :
    (∀ (raw dec : Nat) (sym : String) (prev : String),
      runBalanceEffect (some { balanceOf := some raw, decimals := some dec, symbol := some sym }) prev
        = some (formatUnits raw dec)
      ∧ balancesRender true (HookRes.success { balanceOf := some raw, decimals := some dec, symbol := some sym })
          (formatUnits raw dec) = BalView.ready (formatUnits raw dec ++ " IT"))
    ∧ formatUnits 1000000000000000000000 18 = "1000"
    ∧ formatUnits 0 18 = "0"
    ∧ balancesRender true
        (HookRes.success { balanceOf := some 1000000000000000000000, decimals := some 18, symbol := some "IT" })
        (formatUnits 1000000000000000000000 18) = BalView.ready "1000 IT"
    ∧ balancesRender true
        (HookRes.success { balanceOf := some 0, decimals := some 18, symbol := some "IT" })
        (formatUnits 0 18) = BalView.ready "0 IT" := by
  refine ⟨fun raw dec sym prev => ⟨rfl, rfl⟩, by decide, by decide, by decide, by decide⟩

/-- C4 counterexample: a batch whose symbol call failed per-call while the
batch itself resolved (no batch-level failure) is exposed to the view as a
ready result, not as the error state: all-or-nothing is not enforced. -/
theorem batch_all_or_nothing_cex :
    ({ balanceOf := some 5000000000000000000, decimals := some 18, symbol := none } : BatchData).symbol = none
    ∧ runBalanceEffect
        (some { balanceOf := some 5000000000000000000, decimals := some 18, symbol := none }) "0" = some "5"
    ∧ balancesRender true
        (HookRes.success { balanceOf := some 5000000000000000000, decimals := some 18, symbol := none })
        "5" = BalView.ready "5 IT" := by
  decide

/-- C4 amended: the view does distinguish only loading, error and
ready(text) — loading maps to the loading paragraph, a batch-level failure
to the error paragraph, and any resolved batch to the ready card — but the
per-call statuses are never inspected on the ready path, so a partially
failed batch is rendered ready rather than error. -/
theorem batch_view_states :
    (∀ bal : String, balancesRender true HookRes.loading bal = BalView.loading)
    ∧ (∀ bal : String, balancesRender true HookRes.error bal = BalView.error)
    ∧ (∀ (bd : BatchData) (bal : String),
        balancesRender true (HookRes.success bd) bal = BalView.ready (bal ++ " IT")) := by
  exact ⟨fun bal => rfl, fun bal => rfl, fun bd bal => rfl⟩

/-- C7 counterexample: with the batch's symbol call returning "XYZ" the
rendered text is still "1000 IT" — it ends in the hardcoded literal "IT",
and "XYZ" is not a suffix of it, so the fetched symbol is not appended. -/
theorem symbol_not_appended_cex :
    balancesRender true
      (HookRes.success { balanceOf := some 1000000000000000000000, decimals := some 18, symbol := some "XYZ" })
      (formatUnits 1000000000000000000000 18) = BalView.ready "1000 IT"
    ∧ "1000 IT" ≠ "1000" ++ " " ++ "XYZ"
    ∧ List.isSuffixOf "XYZ".data "1000 IT".data = false := by
  decide

/-- C7 amended: the rendered balance text ends with the hardcoded literal
"IT", independent of whatever the batch's symbol call returned: the render
is the same function of the stored balance for any two batch contents. -/
theorem symbol_hardcoded :
    ∀ (bd bd' : BatchData) (bal : String),
      balancesRender true (HookRes.success bd) bal = BalView.ready (bal ++ " IT")
      ∧ balancesRender true (HookRes.success bd) bal
          = balancesRender true (HookRes.success bd') bal := by
  exact fun bd bd' bal => ⟨rfl, rfl⟩

/-- C9: when the wallet is not connected the balance reader renders nothing
at all, whatever the hook reports and whatever balance is stored — not the
error paragraph and not the loading paragraph. -/
theorem disconnected_renders_nothing :
    ∀ (hook : HookRes) (bal : String), balancesRender false hook bal = BalView.nothing := by
  exact fun hook bal => rfl

/-! ## Session/network guard (App.tsx, src/unnamed/part_000)

App reads `isConnected` and `chain` from the wallet provider.  Its render
shows the wrong-network banner when connected with `chain?.id !== 2810` and
mounts Balances and Faucet when connected with `chain?.id === 2810`.  Its
switch-network effect has dependency array `[isConnected, chain,
switchChain]`: it runs on mount and again whenever the dependencies change,
and issues a `switchChain` request iff connected off the target chain. -/

/-- The dependencies the App effect and render read: connection status and
the wallet's current chain id (`chain?.id`, absent when the provider reports
no chain object). -/
structure AppDeps where
  isConnected : Bool
  chainId : Option Nat
deriving DecidableEq

/-- The guard `isConnected && chain?.id !== 2810` shared by the banner and
the switch effect. -/
def wrongNetwork (d : AppDeps) : Bool :=
  d.isConnected && !(d.chainId == some targetChainId)

/-- Which of the three conditional pieces App's render emits. -/
structure AppRender where
  wrongNetworkMsg : Bool
  balancesMounted : Bool
  faucetMounted : Bool
deriving DecidableEq

/-- The render of App.tsx lines 23-39: banner iff connected off target,
Balances and Faucet iff connected on target. -/
def appRender (d : AppDeps) : AppRender :=
  { wrongNetworkMsg := d.isConnected && !(d.chainId == some targetChainId)
  , balancesMounted := d.isConnected && (d.chainId == some targetChainId)
  , faucetMounted := d.isConnected && (d.chainId == some targetChainId) }

/-- One potential run of App's switch effect at a render with dependencies
`cur`, given the previous run's dependencies (`none` on mount): the effect
body runs iff the dependencies changed, and issues a switch-network request
iff connected off the target chain. -/
def switchRequestAt (prev : Option AppDeps) (cur : AppDeps) : Bool :=
  decide (prev ≠ some cur) && wrongNetwork cur

/-- Total number of switch-network requests issued over a sequence of
renders, threading the previous effect dependencies. -/
def switchRequests : Option AppDeps → List AppDeps → Nat
  | _, [] => 0
  | prev, d :: rest =>
      (if switchRequestAt prev d then 1 else 0) + switchRequests (some d) rest

/-- Whether a render is a transition into the wrong-network state: wrong now
and not wrong at the previous render (or no previous render). -/
def wrongTransitionAt (prev : Option AppDeps) (cur : AppDeps) : Bool :=
  wrongNetwork cur
    && !(match prev with | none => false | some p => wrongNetwork p)

/-- Number of transitions into the wrong-network state over a sequence of
renders. -/
def wrongTransitions : Option AppDeps → List AppDeps → Nat
  | _, [] => 0
  | prev, d :: rest =>
      (if wrongTransitionAt prev d then 1 else 0) + wrongTransitions (some d) rest

/-- C1: for every connected state, a chain id other than the target 2810
renders the wrong-network banner and mounts neither Balances nor Faucet,
while the target chain id mounts both views and shows no banner. -/
theorem network_guard_render (d : AppDeps) (hc : d.isConnected = true) :
    (d.chainId ≠ some targetChainId →
      (appRender d).wrongNetworkMsg = true
      ∧ (appRender d).balancesMounted = false
      ∧ (appRender d).faucetMounted = false)
    ∧ (d.chainId = some targetChainId →
      (appRender d).wrongNetworkMsg = false
      ∧ (appRender d).balancesMounted = true
      ∧ (appRender d).faucetMounted = true) := by
  constructor
  · intro h
    simp [appRender, hc, h]
  · intro h
    simp [appRender, hc, h, targetChainId]

/-- Concrete instantiation of the connected network guard: on chain 1 the
banner shows with nothing mounted, on chain 2810 both views mount. -/
theorem network_guard_render_witness :
    ((appRender { isConnected := true, chainId := some 1 }).wrongNetworkMsg = true
      ∧ (appRender { isConnected := true, chainId := some 1 }).balancesMounted = false
      ∧ (appRender { isConnected := true, chainId := some 1 }).faucetMounted = false)
    ∧ ((appRender { isConnected := true, chainId := some 2810 }).balancesMounted = true
      ∧ (appRender { isConnected := true, chainId := some 2810 }).faucetMounted = true) :=
  ⟨(network_guard_render { isConnected := true, chainId := some 1 } rfl).1 (by decide),
   ⟨((network_guard_render { isConnected := true, chainId := some 2810 } rfl).2 rfl).2.1,
    ((network_guard_render { isConnected := true, chainId := some 2810 } rfl).2 rfl).2.2⟩⟩

/-- C3 counterexample: over the renders (connected, chain 1) then
(connected, chain 3) there is a single transition into wrong-network but
the effect issues two switch requests, because its dependency array changed
while the app stayed connected off target — the request count is per
dependency change, not per transition. -/
theorem switch_per_transition_cex :
    wrongTransitions none
        [{ isConnected := true, chainId := some 1 }, { isConnected := true, chainId := some 3 }] = 1
    ∧ switchRequests none
        [{ isConnected := true, chainId := some 1 }, { isConnected := true, chainId := some 3 }] = 2
    ∧ (2 : Nat) ≠ 1 := by
  decide

/-- C3 amended: a switch request is issued exactly at an effect run whose
dependencies changed while connected off the target chain; hence no request
on a re-render with unchanged dependencies (not one per render), no request
whenever the chain id is at the target, and at least one on every
transition into wrong-network — but a dependency change within the
wrong-network state issues a further request. -/
theorem switch_per_dep_change :
    (∀ (prev : Option AppDeps) (d : AppDeps),
      switchRequestAt prev d = true ↔ (prev ≠ some d ∧ wrongNetwork d = true))
    ∧ (∀ d : AppDeps, d.chainId = some targetChainId →
        ∀ prev : Option AppDeps, switchRequestAt prev d = false)
    ∧ (∀ d : AppDeps, switchRequests none [d, d] = switchRequests none [d])
    ∧ (∀ (prev : Option AppDeps) (d : AppDeps),
        wrongTransitionAt prev d = true → prev ≠ some d → switchRequestAt prev d = true) := by
  refine ⟨fun prev d => ?_, fun d h prev => ?_, fun d => ?_, fun prev d h hne => ?_⟩
  · simp [switchRequestAt]
  · simp [switchRequestAt, wrongNetwork, h]
  · simp [switchRequests, switchRequestAt]
  · simp [switchRequestAt, hne]
    simp [wrongTransitionAt, Bool.and_eq_true] at h
    exact h.1

/-- Concrete instantiation of the switch-request rule: the mount render on
chain 1 issues a request, a render on the target chain never does, and a
repeated render with unchanged dependencies adds no request. -/
theorem switch_per_dep_change_witness :
    switchRequestAt none { isConnected := true, chainId := some 1 } = true
    ∧ switchRequestAt (some { isConnected := true, chainId := some 2810 })
        { isConnected := true, chainId := some 2810 } = false
    ∧ switchRequests none
        [{ isConnected := true, chainId := some 1 }, { isConnected := true, chainId := some 1 }]
        = switchRequests none [{ isConnected := true, chainId := some 1 }] :=
  ⟨(switch_per_dep_change.1 none { isConnected := true, chainId := some 1 }).mpr
      ⟨by decide, by decide⟩,
   switch_per_dep_change.2.1 { isConnected := true, chainId := some 2810 } rfl
      (some { isConnected := true, chainId := some 2810 }),
   switch_per_dep_change.2.2.1 { isConnected := true, chainId := some 1 }⟩

/-! ## Faucet writer (src/src/components/Faucet.tsx)

The component keeps two state cells, `loading` and `message`, initialised to
false and the empty string.  `handleClaim` synchronously sets loading true,
clears the message, and issues the write with an onSuccess callback (sets
the success message, clears loading) and an onError callback (stores the
error value as the message, clears loading).  The button is disabled by
`!isConnected || loading || isSimulating`.  The machine below threads these
cells through user clicks and write resolutions, counting issued writes; a
click on a disabled control is a no-op. -/

/-- A failure of the submitted write: `reason` is the structured revert
reason string when one is available (the error's message field), `raw`
identifies the error value itself, which is what the source stores via
`setMessage(error)`. -/
structure ClaimError where
  reason : Option String
  raw : String
deriving DecidableEq

/-- Contents of the `message` state cell.  The source declares it as a
string but `onError` stores the whole error value in it, so the cell holds
either a string or a raw error object. -/
inductive Msg where
  | text (s : String)
  | errObj (e : ClaimError)
deriving DecidableEq

/-- JS truthiness of the message cell as tested by the render's
`message && ...` guard: the empty string is falsy, any other string and any
error object is truthy. -/
def messageVisible : Msg → Bool
  | Msg.text s => !(s == "")
  | Msg.errObj _ => true

/-- The Faucet component's own state: the two cells, whether a write is
outstanding (issued and not yet resolved), and how many writes were issued. -/
structure FaucetState where
  loading : Bool
  message : Msg
  outstanding : Bool
  writesIssued : Nat
deriving DecidableEq

/-- External inputs the render reads for the disabled check. -/
structure FaucetEnv where
  isConnected : Bool
  isSimulating : Bool
deriving DecidableEq

/-- The button's disabled predicate, Faucet.tsx line 47:
`!isConnected || loading || isSimulating`. -/
def claimDisabled (env : FaucetEnv) (s : FaucetState) : Bool :=
  !env.isConnected || s.loading || env.isSimulating

/-- Events driving the Faucet machine: a user click under external inputs
`env`, and the resolution of the outstanding write (the second argument of
`claimWrite`, exactly one of onSuccess and onError fires per write). -/
inductive FaucetEvent where
  | click (env : FaucetEnv)
  | resolveOk
  | resolveErr (e : ClaimError)
deriving DecidableEq

/-- Initial component state: `useState(false)` and `useState('')`. -/
def faucetInit : FaucetState :=
  { loading := false, message := Msg.text "", outstanding := false, writesIssued := 0 }

/-- One step of the Faucet machine.  A click on an enabled control runs
`handleClaim` (Faucet.tsx lines 22-40): set loading, clear message, issue
the write; a click on a disabled control does nothing.  A resolution runs
the matching callback: onSuccess stores the success text, onError stores
the raw error value, both clear loading. -/
def faucetStep (s : FaucetState) : FaucetEvent → FaucetState
  | FaucetEvent.click env =>
      if claimDisabled env s then s
      else { loading := true, message := Msg.text "", outstanding := true
           , writesIssued := s.writesIssued + 1 }
  | FaucetEvent.resolveOk =>
      if s.outstanding then
        { s with loading := false, message := Msg.text "Claim successful!", outstanding := false }
      else s
  | FaucetEvent.resolveErr e =>
      if s.outstanding then
        { s with loading := false, message := Msg.errObj e, outstanding := false }
      else s

/-- The Faucet state reached from the initial state by a list of events. -/
def faucetRun (evs : List FaucetEvent) : FaucetState :=
  evs.foldl faucetStep faucetInit

/-- The onError handler as the repository's own tutorial documents it
(tutorial.md line 352, tutorial-part-1.md line 433):
`setMessage(error.message || 'Claim failed')` — the structured reason when
one is present and non-empty, otherwise the generic fallback text. -/
def tutorialErrMessage (e : ClaimError) : Msg :=
  Msg.text (match e.reason with
    | some r => if r = "" then "Claim failed" else r
    | none => "Claim failed")

/-- Invariant of the Faucet machine: while a write is outstanding the busy
flag is set and the message cell is clear. -/
def FaucetInv (s : FaucetState) : Prop :=
  s.outstanding = true → (s.loading = true ∧ s.message = Msg.text "")

theorem faucetInv_init : FaucetInv faucetInit := by
  intro h
  simp [faucetInit] at h

theorem faucetInv_step (s : FaucetState) (e : FaucetEvent) (h : FaucetInv s) :
    FaucetInv (faucetStep s e) := by
  cases e with
  | click env =>
    by_cases hd : claimDisabled env s = true
    · simpa [faucetStep, hd] using h
    · intro hout
      simp [faucetStep, hd]
  | resolveOk =>
    by_cases ho : s.outstanding = true
    · intro hout
      simp [faucetStep, ho] at hout
    · simpa [faucetStep, ho] using h
  | resolveErr e =>
    by_cases ho : s.outstanding = true
    · intro hout
      simp [faucetStep, ho] at hout
    · simpa [faucetStep, ho] using h

theorem faucetInv_foldl (l : List FaucetEvent) (s : FaucetState) (h : FaucetInv s) :
    FaucetInv (l.foldl faucetStep s) := by
  induction l generalizing s with
  | nil => exact h
  | cons e l ih => exact ih (faucetStep s e) (faucetInv_step s e h)

theorem faucetInv_run (evs : List FaucetEvent) : FaucetInv (faucetRun evs) :=
  faucetInv_foldl evs faucetInit faucetInv_init

/-- C5: a click on an enabled control sets the busy flag synchronously (in
the same step that issues the write, before any resolution event), and in
every reachable state with a write outstanding the busy flag is still set —
so the control is disabled under every external input — and a further click
is a no-op: it issues no second write. -/
theorem claim_busy_guard :
    (∀ (s : FaucetState) (env : FaucetEnv), claimDisabled env s = false →
      (faucetStep s (FaucetEvent.click env)).loading = true
      ∧ (faucetStep s (FaucetEvent.click env)).outstanding = true
      ∧ (faucetStep s (FaucetEvent.click env)).writesIssued = s.writesIssued + 1)
    ∧ (∀ evs : List FaucetEvent, (faucetRun evs).outstanding = true →
        (faucetRun evs).loading = true
        ∧ (∀ env : FaucetEnv, claimDisabled env (faucetRun evs) = true)
        ∧ (∀ env : FaucetEnv,
            faucetStep (faucetRun evs) (FaucetEvent.click env) = faucetRun evs)) := by
  constructor
  · intro s env hen
    simp [faucetStep, hen]
  · intro evs hout
    have hload : (faucetRun evs).loading = true := (faucetInv_run evs hout).1
    refine ⟨hload, fun env => ?_, fun env => ?_⟩
    · simp [claimDisabled, hload]
    · simp [faucetStep, claimDisabled, hload]

/-- Concrete instantiation of the busy guard: after one enabled click the
busy flag is set and a second click leaves the state unchanged. -/
theorem claim_busy_guard_witness :
    (faucetStep faucetInit (FaucetEvent.click { isConnected := true, isSimulating := false })).loading = true
    ∧ (faucetRun [FaucetEvent.click { isConnected := true, isSimulating := false }]).loading = true
    ∧ faucetStep (faucetRun [FaucetEvent.click { isConnected := true, isSimulating := false }])
        (FaucetEvent.click { isConnected := true, isSimulating := false })
        = faucetRun [FaucetEvent.click { isConnected := true, isSimulating := false }] :=
  ⟨(claim_busy_guard.1 faucetInit { isConnected := true, isSimulating := false } (by decide)).1,
   (claim_busy_guard.2 [FaucetEvent.click { isConnected := true, isSimulating := false }] (by decide)).1,
   (claim_busy_guard.2 [FaucetEvent.click { isConnected := true, isSimulating := false }] (by decide)).2.2
     { isConnected := true, isSimulating := false }⟩

/-- C6: the code stores the raw error value itself as the message
(`setMessage(error)`), while the repository's tutorial documents
`setMessage(error.message || 'Claim failed')`.  At a failure without a
structured reason the displayed message is the raw error object, not the
documented generic fallback "Claim failed"; two such failures even display
two different messages.  The busy-flag half of the claim does hold: loading
is cleared, so the control is re-enabled. -/
theorem claim_error_raw_message :
    (faucetStep (faucetRun [FaucetEvent.click { isConnected := true, isSimulating := false }])
        (FaucetEvent.resolveErr { reason := none, raw := "User rejected the request." })).message
      = Msg.errObj { reason := none, raw := "User rejected the request." }
    ∧ Msg.errObj { reason := none, raw := "User rejected the request." }
        ≠ tutorialErrMessage { reason := none, raw := "User rejected the request." }
    ∧ tutorialErrMessage { reason := none, raw := "User rejected the request." }
        = Msg.text "Claim failed"
    ∧ (faucetStep (faucetRun [FaucetEvent.click { isConnected := true, isSimulating := false }])
        (FaucetEvent.resolveErr { reason := none, raw := "User rejected the request." })).message
      ≠ (faucetStep (faucetRun [FaucetEvent.click { isConnected := true, isSimulating := false }])
        (FaucetEvent.resolveErr { reason := none, raw := "Internal JSON-RPC error." })).message
    ∧ (faucetStep (faucetRun [FaucetEvent.click { isConnected := true, isSimulating := false }])
        (FaucetEvent.resolveErr { reason := none, raw := "User rejected the request." })).loading
      = false := by
  decide

/-- C10: a click on an enabled control synchronously clears the message; in
every reachable state with a write outstanding the message cell is the
empty string, so nothing is displayed; and from an empty message cell, the
only events that can make a message visible are the resolution of an
outstanding write. -/
theorem claim_message_cleared :
    (∀ (s : FaucetState) (env : FaucetEnv), claimDisabled env s = false →
      (faucetStep s (FaucetEvent.click env)).message = Msg.text "")
    ∧ (∀ evs : List FaucetEvent, (faucetRun evs).outstanding = true →
        (faucetRun evs).message = Msg.text ""
        ∧ messageVisible (faucetRun evs).message = false)
    ∧ (∀ (s : FaucetState) (e : FaucetEvent), s.message = Msg.text "" →
        messageVisible (faucetStep s e).message = true →
        s.outstanding = true
        ∧ (e = FaucetEvent.resolveOk ∨ ∃ err : ClaimError, e = FaucetEvent.resolveErr err)) := by
  refine ⟨fun s env hen => ?_, fun evs hout => ?_, fun s e hmsg hvis => ?_⟩
  · simp [faucetStep, hen]
  · have h := (faucetInv_run evs hout).2
    exact ⟨h, by simp [h, messageVisible]⟩
  · cases e with
    | click env =>
      by_cases hd : claimDisabled env s = true <;>
        simp [faucetStep, hd, hmsg, messageVisible] at hvis
    | resolveOk =>
      by_cases ho : s.outstanding = true
      · exact ⟨ho, Or.inl rfl⟩
      · simp [faucetStep, ho, hmsg, messageVisible] at hvis
    | resolveErr err =>
      by_cases ho : s.outstanding = true
      · exact ⟨ho, Or.inr ⟨err, rfl⟩⟩
      · simp [faucetStep, ho, hmsg, messageVisible] at hvis

/-- Concrete instantiation of the message-clearing rule: after one enabled
click the message cell is empty and invisible, and a success resolution
from that state is recognised as the only message-revealing event. -/
theorem claim_message_cleared_witness :
    (faucetStep faucetInit (FaucetEvent.click { isConnected := true, isSimulating := false })).message
      = Msg.text ""
    ∧ (faucetRun [FaucetEvent.click { isConnected := true, isSimulating := false }]).message
      = Msg.text ""
    ∧ ((faucetRun [FaucetEvent.click { isConnected := true, isSimulating := false }]).outstanding = true
      ∧ (FaucetEvent.resolveOk = FaucetEvent.resolveOk
        ∨ ∃ err : ClaimError, FaucetEvent.resolveOk = FaucetEvent.resolveErr err)) :=
  ⟨claim_message_cleared.1 faucetInit { isConnected := true, isSimulating := false } (by decide),
   (claim_message_cleared.2.1 [FaucetEvent.click { isConnected := true, isSimulating := false }]
      (by decide)).1,
   claim_message_cleared.2.2
      (faucetRun [FaucetEvent.click { isConnected := true, isSimulating := false }])
      FaucetEvent.resolveOk (by decide) (by decide)⟩

/-! ## Staleness of balance fetches (Balances.tsx with its query layer)

Balances passes `useReadContracts` a contracts array whose first entry has
`args: [address]`, so the array — the hook's query key — changes whenever
the connected account changes.  The query layer (wagmi over react-query)
holds data per key and the hook exposes only the data of the key it is
currently subscribed to, which is the spec's mandated "ignore stale
results" rule: a result arriving for a superseded key is not delivered to
the view.  The machine below threads account changes and result deliveries
through the component; on a delivery for the current key the effect of
Balances.tsx lines 33-41 stores the formatted balance. -/

/-- One entry of the contracts array handed to the batched read: contract
address, function name and encoded arguments. -/
structure ReadCall where
  address : String
  functionName : String
  args : List String
deriving DecidableEq

/-- The contracts array of Balances.tsx lines 13-31 for a given connected
account: balanceOf(account), decimals(), symbol() against the iToken
address.  This array is the identity (query key) of the batched read, and
it determines the account. -/
def balanceContracts (account : String) : List ReadCall :=
  [ { address := ITOKEN_ADDRESS, functionName := "balanceOf", args := [account] }
  , { address := ITOKEN_ADDRESS, functionName := "decimals", args := [] }
  , { address := ITOKEN_ADDRESS, functionName := "symbol", args := [] } ]

/-- A successfully resolved batch as delivered by the query layer: raw
balance, decimals and symbol results. -/
structure Delivered where
  raw : Nat
  dec : Nat
  sym : String
deriving DecidableEq

/-- State of the balance-fetch machine: the connected account, the data the
hook currently holds tagged with the key it was delivered under (none while
the current key's fetch is outstanding), and the component's stored balance
string. -/
structure FetchState where
  account : Option String
  held : Option (List ReadCall × Delivered)
  balance : String
deriving DecidableEq

/-- Events of the balance-fetch machine: the wallet reports a (new)
connected account, or the query layer resolves the batch issued under some
key. -/
inductive FetchEvent where
  | setAccount (a : String)
  | deliver (key : List ReadCall) (d : Delivered)
deriving DecidableEq

/-- One step of the balance-fetch machine.  An account change re-keys the
hook, which then holds no data for the new key (loading) until a delivery
arrives.  A delivery is exposed to the component only when its key is the
one currently subscribed, in which case the effect of Balances.tsx lines
33-41 stores the formatted balance; a delivery under any other (stale) key
is ignored. -/
def fetchStep (s : FetchState) : FetchEvent → FetchState
  | FetchEvent.setAccount a =>
      { account := some a, held := none, balance := s.balance }
  | FetchEvent.deliver k d =>
      if s.account.map balanceContracts = some k then
        { account := s.account, held := some (k, d), balance := formatUnits d.raw d.dec }
      else s

/-- Initial balance-fetch state: no account, no data, balance cell at its
`useState('0')` default. -/
def fetchInit : FetchState := { account := none, held := none, balance := "0" }

/-- The balance-fetch state reached from the initial state by a list of
events. -/
def fetchRun (evs : List FetchEvent) : FetchState :=
  evs.foldl fetchStep fetchInit

/-- What Balances shows in the fetch model while connected: the loading
paragraph until the current key's data is delivered, then the ready card
built from the stored balance. -/
def fetchRender (s : FetchState) : BalView :=
  match s.held with
  | none => BalView.loading
  | some _ => BalView.ready (s.balance ++ " IT")

/-- Invariant of the balance-fetch machine: any data the hook holds was
delivered under the key of the currently connected account, and the stored
balance is the formatted amount of exactly that delivery. -/
def FetchInv (s : FetchState) : Prop :=
  ∀ (k : List ReadCall) (d : Delivered), s.held = some (k, d) →
    ∃ a : String, s.account = some a ∧ k = balanceContracts a
      ∧ s.balance = formatUnits d.raw d.dec

theorem fetchInv_init : FetchInv fetchInit := by
  intro k d h
  simp [fetchInit] at h

theorem fetchInv_step (s : FetchState) (e : FetchEvent) (h : FetchInv s) :
    FetchInv (fetchStep s e) := by
  cases e with
  | setAccount a =>
    intro k d hk
    simp [fetchStep] at hk
  | deliver k' d' =>
    by_cases hm : s.account.map balanceContracts = some k'
    · have hstep : fetchStep s (FetchEvent.deliver k' d')
          = { account := s.account, held := some (k', d')
            , balance := formatUnits d'.raw d'.dec } := by
        simp [fetchStep, hm]
      intro k d hk
      rw [hstep] at hk ⊢
      simp only [Option.some.injEq, Prod.mk.injEq] at hk
      obtain ⟨a, ha, hab⟩ := Option.map_eq_some'.mp hm
      refine ⟨a, by simp [ha], ?_, ?_⟩
      · rw [← hk.1]
        exact hab.symm
      · rw [hk.2]
    · have hstep : fetchStep s (FetchEvent.deliver k' d') = s := by
        simp [fetchStep, hm]
      rw [hstep]
      exact h

theorem fetchInv_foldl (l : List FetchEvent) (s : FetchState) (h : FetchInv s) :
    FetchInv (l.foldl fetchStep s) := by
  induction l generalizing s with
  | nil => exact h
  | cons e l ih => exact ih (fetchStep s e) (fetchInv_step s e h)

theorem fetchInv_run (evs : List FetchEvent) : FetchInv (fetchRun evs) :=
  fetchInv_foldl evs fetchInit fetchInv_init

/-- C8: in every reachable state, whatever data the view holds was
delivered under the current account's own key and the rendered balance is
computed from that delivery — never from a superseded account's fetch; and
in the concrete scenario where the account changes from 0xA to 0xB while
0xA's fetch is outstanding and 0xA's result arrives after 0xB's fetch has
started, that result is ignored: the hook holds nothing and the view stays
on the loading state for 0xB. -/
theorem stale_result_ignored :
    (∀ (evs : List FetchEvent) (k : List ReadCall) (d : Delivered),
      (fetchRun evs).held = some (k, d) →
      ∃ a : String, (fetchRun evs).account = some a ∧ k = balanceContracts a
        ∧ (fetchRun evs).balance = formatUnits d.raw d.dec)
    ∧ (fetchRun
        [ FetchEvent.setAccount "0xA"
        , FetchEvent.setAccount "0xB"
        , FetchEvent.deliver (balanceContracts "0xA") { raw := 1000000000000000000000, dec := 18, sym := "IT" }
        ]).held = none
    ∧ fetchRender (fetchRun
        [ FetchEvent.setAccount "0xA"
        , FetchEvent.setAccount "0xB"
        , FetchEvent.deliver (balanceContracts "0xA") { raw := 1000000000000000000000, dec := 18, sym := "IT" }
        ]) = BalView.loading := by
  refine ⟨fun evs k d h => fetchInv_run evs k d h, by decide, by decide⟩

/-- Concrete instantiation of the staleness invariant: after 0xB's own
delivery the held data is keyed by 0xB and the stored balance is the
formatted amount of that delivery. -/
theorem stale_result_ignored_witness :
    (fetchRun
        [ FetchEvent.setAccount "0xB"
        , FetchEvent.deliver (balanceContracts "0xB") { raw := 0, dec := 18, sym := "IT" }
        ]).account = some "0xB"
    ∧ (fetchRun
        [ FetchEvent.setAccount "0xB"
        , FetchEvent.deliver (balanceContracts "0xB") { raw := 0, dec := 18, sym := "IT" }
        ]).balance = formatUnits 0 18 := by
  obtain ⟨a, ha, hk, hb⟩ := stale_result_ignored.1
    [ FetchEvent.setAccount "0xB"
    , FetchEvent.deliver (balanceContracts "0xB") { raw := 0, dec := 18, sym := "IT" } ]
    (balanceContracts "0xB") { raw := 0, dec := 18, sym := "IT" } (by decide)
  have haB : a = "0xB" := by
    simp [balanceContracts] at hk
    exact hk.symm
  exact ⟨by rw [ha, haB], hb⟩

end MorphFrontend
